import Mathlib

/-!
Verification of the SchoolFit-Airflow meal-data ETL pipeline.

The development shallowly embeds the three source files
(`dags/school_meal_etl.py`, `dags/download_meal_info.py`, `dags/meal.py`):

* `pendulum`/`datetime` values are modeled as a day index (`Nat`, days since
  1970-01-01); `add(days=7)` is addition, and `strftime('%Y%m%d')` is a
  civil-calendar formatter (`strftimeYmd`).
* A JSON row object (`RowRecord`) is an association list of string fields;
  the serialized payload is produced by a deterministic encoder
  (`dumps_rows`), a stand-in for `json.dumps` (its exact byte syntax is not
  claim-relevant, only determinism and the row sequence are).
* Python exceptions are an explicit error type (`EtlErr`); a Python function
  that can raise returns `Except EtlErr`; a Python function that can fall
  off the end without a `return` yields `Option` (`none` = the value `None`).
* Airflow's task machinery is embedded at the level the DAG file uses it:
  `SimpleHttpOperator` with a `response_check` either produces the response
  text or fails the task; `default_args={"retries": 2}` gives every task a
  budget of 2 additional attempts, re-running the task on any failure.
-/

/-! ## Calendar model: day index to YYYYMMDD (strftime('%Y%m%d')) -/

/-- Decimal digits of `n`, least significant first, with explicit fuel (the
fuel `n` itself always suffices since `n / 10 < n` for positive `n`). -/
def digitsRevFuel : Nat → Nat → List Nat
  | 0, _ => []
  | fuel + 1, n => if n = 0 then [] else (n % 10) :: digitsRevFuel fuel (n / 10)

/-- Decimal digits of `n`, least significant first (empty for 0). -/
def digitsRev (n : Nat) : List Nat := digitsRevFuel n n

/-- Characters of `n` in decimal, most significant first. -/
def padDigits (n : Nat) : List Char :=
  if n = 0 then ['0'] else ((digitsRev n).reverse).map (fun d => Char.ofNat (48 + d))

/-- Characters of `n` in decimal, most significant first, zero-padded to width `w`. -/
def padNum (w : Nat) (n : Nat) : List Char :=
  List.replicate (w - (padDigits n).length) '0' ++ padDigits n

/-- Civil calendar date (year, month, day) from a day index counted from
1970-01-01 (Howard Hinnant's `civil_from_days`, restricted to `Nat`). -/
def civilFromDays (z0 : Nat) : Nat × Nat × Nat :=
  let z := z0 + 719468
  let era := z / 146097
  let doe := z % 146097
  let yoe := (doe - doe / 1460 + doe / 36524 - doe / 146096) / 365
  let y := yoe + era * 400
  let doy := doe - (365 * yoe + yoe / 4 - yoe / 100)
  let mp := (5 * doy + 2) / 153
  let d := doy - (153 * mp + 2) / 5 + 1
  let m := if mp < 10 then mp + 3 else mp - 9
  (if m ≤ 2 then y + 1 else y, m, d)

/-- `datetime.strftime('%Y%m%d')` on a day-index datetime. -/
def strftimeYmd (t : Nat) : String :=
  String.mk (padNum 4 (civilFromDays t).1
    ++ padNum 2 (civilFromDays t).2.1 ++ padNum 2 (civilFromDays t).2.2)

/-! ## `get_meal_form_data` (dags/school_meal_etl.py lines 54-72, no-`meal_name`
branch, byte-identical to `dags/download_meal_info.py` lines 7-17; the DAG
always calls it with `meal_name=None`). The `bytes(…, "utf-8")` wrapper is
dropped: the payload is kept as the string being encoded. -/

def get_meal_form_data (code : String) (to_date : Nat) (end_date : Nat) : String :=
  "rows=100&infId=OPEN17320190722180924242823&infSeq=1&downloadType=J&"
    ++ ("ATPT_OFCDC_SC_CODE=" ++ code ++ "&SCHUL_NM=&MMEAL_SC_NM=")
    ++ ("&MLSV_YMD=" ++ strftimeYmd to_date ++ "&MLSV_YMD=" ++ strftimeYmd end_date)

/-! ## Registry and DAG constants (dags/school_meal_etl.py lines 29-49) -/

def ATPT_OFCDC_SC_CODES : List String :=
  ["B10", "C10", "D10", "E10", "F10", "G10", "H10", "I10",
   "J10", "K10", "M10", "N10", "P10", "Q10", "R10", "S10", "T10"]

def TASK_TYPES : List String := ["extract", "transform", "load"]

/-- DAG-level `default_args={"retries": 2}` (line 77): every task may be
re-attempted 2 additional times after a failure. -/
def default_args_retries : Nat := 2

/-! ## Error model -/

/-- Failures that can surface in the pipeline.  The first four model Python
exceptions; the last three are the spec's error taxonomy, mapped onto what
the code actually raises where such a mapping exists. -/
inductive EtlErr where
  | indexError
  | nameError (x : String)
  | valueError
  | typeError
  | transientFetch
  | malformedData
  | transientStorage
deriving DecidableEq, Repr

/-- One parsed JSON row object: named fields with string values. -/
abbrev RowRecord := List (String × String)

/-- Deterministic serializer standing in for `json.dumps` (exact JSON byte
syntax is not modeled; determinism and the encoded row sequence are). -/
def dumps_rows (rows : List RowRecord) : String := toString rows

/-! ## Extract stage (dags/school_meal_etl.py lines 117-133) -/

/-- The `response_check=lambda res: res.status_code == 200` of the
`SimpleHttpOperator`. -/
def response_check (status : Nat) : Bool := status == 200

/-- The Extract task: the operator issues the request and, when
`response_check` rejects the response, raises (task failure, retryable under
`default_args`); otherwise `response_filter` hands the response body, the
parsed row list here, to XCom. -/
def extract (status : Nat) (body : List RowRecord) : Except EtlErr (List RowRecord) :=
  if response_check status then Except.ok body else Except.error EtlErr.transientFetch

/-- `download_meal_info` (dags/download_meal_info.py lines 21-40): returns
`r.json()` when `r.status_code == 200`, otherwise falls off the end of the
function and returns the Python value `None` (modeled as `none`) — it does
not raise. -/
def download_meal_info (status : Nat) (jsonBody : List RowRecord) : Option (List RowRecord) :=
  if status == 200 then some jsonBody else none

/-! ## Transform stage (dags/school_meal_etl.py lines 90-96) -/

/-- Python `list.pop(0)`: removes and returns the first element, raising
`IndexError` on an empty list. -/
def list_pop0 (l : List α) : Except EtlErr (α × List α) :=
  match l with
  | [] => Except.error EtlErr.indexError
  | x :: xs => Except.ok (x, xs)

/-- The Transform task body after `json.loads`: `meal_data.pop(0)` followed by
re-serialization of the remaining rows (the XCom/JSON round trip is kept at
the row-list level). -/
def transform (meal_data : List RowRecord) : Except EtlErr (List RowRecord) :=
  match list_pop0 meal_data with
  | Except.error e => Except.error e
  | Except.ok (_, rest) => Except.ok rest

/-! ## Target-date computation (dags/school_meal_etl.py lines 99 and 113) -/

/-- `pendulum.now().add(days=n)` with the wall clock passed explicitly. -/
def pendulum_add_days (now : Nat) (days : Nat) : Nat := now + days

/-- Line 113: `after_weeks = pendulum.now().add(days=7)`, evaluated when the
DAG file is parsed (once per partition-loop iteration). -/
def after_weeks (parse_now : Nat) : Nat := pendulum_add_days parse_now 7

/-- Line 122: the request body handed to the Extract operator, built at DAG
parse time from `after_weeks` for both window boundaries. -/
def extract_form_data (parse_now : Nat) (code : String) : String :=
  get_meal_form_data code (after_weeks parse_now) (after_weeks parse_now)

/-- Line 99: `date = pendulum.now().add(days=7)`, evaluated inside `load`,
i.e. at each execution of the Load task (retries included). -/
def load_date (exec_now : Nat) : Nat := pendulum_add_days exec_now 7

/-- Line 107: the S3 object key `f"{date.strftime('%Y%m%d')}/{code}.json"`. -/
def load_storage_key (exec_now : Nat) (code : String) : String :=
  strftimeYmd (load_date exec_now) ++ "/" ++ code ++ ".json"

/-! ## Load stage (dags/school_meal_etl.py lines 98-110) -/

/-- What one `hook.load_string` call carries: key, serialized payload, and the
`replace` flag. -/
structure StoredObject where
  key : String
  string_data : String
  replace : Bool
deriving DecidableEq, Repr

/-- The Load task body: recompute the date from the wall clock, pull the
cleaned rows, and write them with `replace=True`. -/
def load (exec_now : Nat) (code : String) (cleaned : List RowRecord) : StoredObject :=
  { key := load_storage_key exec_now code
    string_data := dumps_rows cleaned
    replace := true }

/-- `S3Hook.load_string` semantics on a bucket modeled as an association list
keyed by object key: with `replace=True` the object at the key is replaced
(never duplicated); with `replace=False` an existing key raises. -/
def s3_load_string (store : List (String × String)) (o : StoredObject) :
    Except EtlErr (List (String × String)) :=
  if !o.replace && store.any (fun kv => kv.1 == o.key) then
    Except.error EtlErr.transientStorage
  else
    Except.ok ((o.key, o.string_data) :: store.filter (fun kv => kv.1 != o.key))

/-- One partition's full Extract → Transform → Load chain as a function of the
wall-clock day at Load execution, the partition code, and the upstream
response (status and rows).  Produces the object handed to `load_string`. -/
def run_pipeline (exec_now : Nat) (code : String) (status : Nat)
    (upstream : List RowRecord) : Except EtlErr StoredObject :=
  match extract status upstream with
  | Except.error e => Except.error e
  | Except.ok raw =>
    match transform raw with
    | Except.error e => Except.error e
    | Except.ok cleaned => Except.ok (load exec_now code cleaned)

/-! ## Airflow retry semantics (default_args, line 77) -/

/-- Airflow task execution with retries: attempt `i` runs `f i`; any raised
error consumes one unit of the remaining retry budget and re-runs the task;
the budget exhausted, the last error stands.  No error class is exempt. -/
def runAttempts (f : Nat → Except EtlErr α) (i : Nat) : Nat → Except EtlErr α
  | 0 => f i
  | budget + 1 =>
    match f i with
    | Except.ok a => Except.ok a
    | Except.error _ => runAttempts f (i + 1) budget

/-! ## Form-data wire-shape reading

`parseFormData` reads an `application/x-www-form-urlencoded` body back into
its `key=value` pairs (split on `&`, each part split at its first `=`).  It
is the verification-side instrument used to state what parameters
`get_meal_form_data` actually encodes. -/

/-- Split a character list at every occurrence of `c` (Python
`str.split(c)`-style: `n` separators give `n + 1` parts). -/
def splitOnChar (c : Char) : List Char → List (List Char)
  | [] => [[]]
  | x :: xs =>
    match splitOnChar c xs with
    | [] => [[]]
    | p :: ps => if x = c then [] :: p :: ps else (x :: p) :: ps

/-- Split a character list at the first occurrence of `c` (the part before,
the part after; the whole list and `[]` when `c` does not occur). -/
def splitFirst (c : Char) : List Char → List Char × List Char
  | [] => ([], [])
  | x :: xs =>
    if x = c then ([], xs)
    else
      ((splitFirst c xs).1.cons x, (splitFirst c xs).2)

/-- Read one form part into its key (before the first `=`) and value. -/
def parsePart (part : List Char) : String × String :=
  (String.mk (splitFirst '=' part).1, String.mk (splitFirst '=' part).2)

/-- Read a form-encoded body into its ordered `key=value` pairs. -/
def parseFormData (s : String) : List (String × String) :=
  (splitOnChar '&' s.data).map parsePart

/-- Render one `key=value` pair. -/
def renderPair (kv : String × String) : List Char :=
  kv.1.data ++ '=' :: kv.2.data

/-- Render pairs joined by `&` — the spec-side description of the wire shape. -/
def renderPairs : List (String × String) → List Char
  | [] => []
  | kv :: rest =>
    match rest with
    | [] => renderPair kv
    | _ :: _ => renderPair kv ++ '&' :: renderPairs rest

/-- `true` when the string contains neither of the form separators `&`, `=`. -/
def formSepFree (s : String) : Bool :=
  s.data.all (fun c => c != '&' && c != '=')

/-! ## Pipeline Assembler (dags/school_meal_etl.py lines 112-176)

The task-construction loop: per regional code, `tasks` starts empty; for each
entry of `TASK_TYPES` the `if/elif` chain appends the operator with task id
`f"{task_type}_{code}_meal_data"`; after each append, `if len(tasks) > 1:
tasks[-2] >> tasks[-1]` registers one dependency edge. -/

def task_id_for (task_type : String) (code : String) : String :=
  task_type ++ "_" ++ code ++ "_meal_data"

/-- One iteration of the inner `for task_type in TASK_TYPES` loop, acting on
the state (task-id list, dependency edges so far). -/
def dag_loop_step (code : String) (st : List String × List (String × String))
    (task_type : String) : List String × List (String × String) :=
  let tasks :=
    if task_type == "extract" || task_type == "transform" || task_type == "load" then
      st.1 ++ [task_id_for task_type code]
    else st.1
  let edges :=
    if tasks.length > 1 then
      match tasks.reverse with
      | last :: prev :: _ => st.2 ++ [(prev, last)]
      | _ => st.2
    else st.2
  (tasks, edges)

/-- The dependency edges the DAG file registers for one regional code. -/
def per_code_edges (code : String) : List (String × String) :=
  (TASK_TYPES.foldl (dag_loop_step code) ([], [])).2

/-- All dependency edges of the DAG (the outer `for code in
ATPT_OFCDC_SC_CODES` loop). -/
def dag_edges : List (String × String) :=
  (ATPT_OFCDC_SC_CODES.map per_code_edges).flatten

/-- The spec's wiring for one partition: one linear chain
Extract → Transform → Load. -/
def spec_chain (code : String) : List (String × String) :=
  [(task_id_for "extract" code, task_id_for "transform" code),
   (task_id_for "transform" code, task_id_for "load" code)]

/-- A schedule assigns each task id a (start, finish) time; it respects the
dependency edges when every edge's downstream task starts only after its
upstream task has finished (successfully). -/
def respects_edges (edges : List (String × String)) (sched : String → Nat × Nat) : Prop :=
  ∀ e ∈ edges, (sched e.1).2 < (sched e.2).1

/-- A concrete schedule running all Extracts, then all Transforms, then all
Loads (used to witness that chain-respecting schedules exist). -/
def w_sched (tid : String) : Nat × Nat :=
  if List.isPrefixOf "extract".data tid.data then (0, 1)
  else if List.isPrefixOf "transform".data tid.data then (2, 3)
  else (4, 5)

/-! ## `removesuffix` (dags/meal.py lines 5-12) -/

/-- Python `target.endswith(suffix)`: the suffix's characters are the final
characters of the target. -/
def pyEndsWith (target : String) (suffix : String) : Bool :=
  suffix.data.length ≤ target.data.length &&
    target.data.drop (target.data.length - suffix.data.length) == suffix.data

/-- Python `target[:-n]` (note `target[:-0]` is `target[:0] = ""`). -/
def pyNegSlice (t : String) (n : Nat) : String :=
  if n = 0 then "" else String.mk (t.data.take (t.data.length - n))

/-- The `Union[str, List[str]]` argument of `removesuffix`. -/
inductive SuffixArg where
  | single (s : String)
  | multi (l : List String)

/-- The `for suf in suffix` loop of `removesuffix`: first matching suffix is
stripped; falling off the loop returns Python `None`. -/
def removesuffix_go (target : String) : List String → Option String
  | [] => none
  | suf :: rest =>
    if pyEndsWith target suf then some (pyNegSlice target suf.length)
    else removesuffix_go target rest

/-- `removesuffix` (dags/meal.py lines 5-12): both the `isinstance(suffix,
list)` branch and the single-string branch fall through to an implicit
`return None` when nothing matches. -/
def removesuffix (target : String) (suffix : SuffixArg) : Option String :=
  match suffix with
  | SuffixArg.multi l => removesuffix_go target l
  | SuffixArg.single s =>
    if pyEndsWith target s then some (pyNegSlice target s.length) else none

/-! ## `get_meal_info` (dags/meal.py lines 15-50) -/

/-- Digits-only decimal reading used by the `float(…)` model. -/
def parseDigits (l : List Char) : Option Nat :=
  l.foldl
    (fun acc c =>
      acc.bind (fun n => if c.isDigit then some (n * 10 + (c.toNat - 48)) else none))
    (some 0)

/-- Python `float(str)` on the unsigned decimal shapes occurring here
(`"12"`, `"12.5"`, `".5"`, `"12."`); anything else is a `ValueError`. -/
def pyFloat (s : String) : Option Rat :=
  match (s.trim).splitOn "." with
  | [i] => if i.isEmpty then none else (parseDigits i.data).map (fun n => (n : Rat))
  | [i, f] =>
    if i.isEmpty && f.isEmpty then none
    else
      match parseDigits i.data, parseDigits f.data with
      | some a, some b => some ((a : Rat) + (b : Rat) / ((10 : Rat) ^ f.length))
      | _, _ => none
  | _ => none

/-- Python `dict.update({k: v})`: replace the value at an existing key,
append otherwise (`None` is a legal dict key, hence `Option String`). -/
def dictUpdate (d : List (Option String × Rat)) (k : Option String) (v : Rat) :
    List (Option String × Rat) :=
  if d.any (fun kv => kv.1 == k) then d.map (fun kv => if kv.1 == k then (k, v) else kv)
  else d ++ [(k, v)]

def NTR_SUFFIXES : List String := ["(g)", "(mg)", "(R.E)"]

/-- The `for ntr_info_item in ntr_info_raw` loop: `item.split(" : ")[1]` can
raise `IndexError`, `float(…)` can raise `ValueError`; the key is
`removesuffix(item.split(" : ")[0], ["(g)", "(mg)", "(R.E)"])`. -/
def build_ntr_info (acc : List (Option String × Rat)) :
    List String → Except EtlErr (List (Option String × Rat))
  | [] => Except.ok acc
  | item :: rest =>
    match (item.splitOn " : ").get? 1 with
    | none => Except.error EtlErr.indexError
    | some v_str =>
      match pyFloat v_str with
      | none => Except.error EtlErr.valueError
      | some v =>
        build_ntr_info
          (dictUpdate acc
            (removesuffix ((item.splitOn " : ").headD "") (SuffixArg.multi NTR_SUFFIXES)) v)
          rest

/-- The fields of `meal_info["mealServiceDietInfo"][1]["row"][0]` that
`get_meal_info` reads (the `DDISH_NM` split into `dish` is computed but never
used in the returned value and is omitted). -/
structure MealRow where
  NTR_INFO : String
  CAL_INFO : String

/-- The upstream response as `get_meal_info` observes it: `r.is_success`
with a parsed row, or not successful. -/
inductive NeisResp where
  | success (row : MealRow)
  | failure

/-- The function body up to (not including) the `return` statement, tracking
the locals `ntr_info` (initialized to `{}` before the `if`) and `cal_info`
(`none` = not yet bound; it is only assigned inside the `if r.is_success`
branch).  `float(None)` — `removesuffix` returning `None` — is a `TypeError`.  -/
def get_meal_info_locals (resp : NeisResp) :
    Except EtlErr (List (Option String × Rat) × Option Rat) :=
  match resp with
  | NeisResp.failure => Except.ok ([], none)
  | NeisResp.success row =>
    match build_ntr_info [] (row.NTR_INFO.splitOn "<br/>") with
    | Except.error e => Except.error e
    | Except.ok ntr =>
      match removesuffix row.CAL_INFO (SuffixArg.single " Kcal") with
      | none => Except.error EtlErr.typeError
      | some s =>
        match pyFloat s with
        | none => Except.error EtlErr.valueError
        | some c => Except.ok (ntr, some c)

/-- `get_meal_info` (dags/meal.py lines 15-50): the `return {"ntr_info":
ntr_info, "cal_info": cal_info}` statement reads both locals; reading the
never-assigned `cal_info` raises `NameError` (`UnboundLocalError`). -/
def get_meal_info (resp : NeisResp) :
    Except EtlErr (List (Option String × Rat) × Rat) :=
  match get_meal_info_locals resp with
  | Except.error e => Except.error e
  | Except.ok (ntr_info, some cal_info) => Except.ok (ntr_info, cal_info)
  | Except.ok (_, none) => Except.error (EtlErr.nameError "cal_info")

/-! ## Concrete demonstration data -/

/-- The spec §8 example payload: a header row followed by two dish rows. -/
def demo_rows : List RowRecord :=
  [[("meta", "header")], [("dish", "rice")], [("dish", "soup")]]

/-- Key of the object a pipeline outcome would store, when it succeeded. -/
def except_key : Except EtlErr StoredObject → Option String
  | Except.ok o => some o.key
  | Except.error _ => none

/-- A Transform-task attempt trace whose first attempt raises the
`MalformedDataError` of the spec's taxonomy and whose re-runs succeed. -/
def transform_attempts_demo : Nat → Except EtlErr (List RowRecord) :=
  fun i => if i = 0 then Except.error EtlErr.malformedData else Except.ok []

/-- The spec-side (§4.2/§6) description of the request parameters: partition
code, row-count limit, fixed report identifier, and both boundary dates as
two explicit `MLSV_YMD` parameters. -/
def form_pairs (code : String) (to_date : Nat) (end_date : Nat) : List (String × String) :=
  [("rows", "100"), ("infId", "OPEN17320190722180924242823"), ("infSeq", "1"),
   ("downloadType", "J"), ("ATPT_OFCDC_SC_CODE", code), ("SCHUL_NM", ""),
   ("MMEAL_SC_NM", ""), ("MLSV_YMD", strftimeYmd to_date), ("MLSV_YMD", strftimeYmd end_date)]

/-! ## Helper lemmas -/

theorem digitsRevFuel_lt (fuel : Nat) : ∀ n, ∀ d ∈ digitsRevFuel fuel n, d < 10 := by
  induction fuel with
  | zero => intro n d hd; simp [digitsRevFuel] at hd
  | succ fuel ih =>
    intro n d hd
    rw [digitsRevFuel] at hd
    split at hd
    · simp at hd
    · rcases List.mem_cons.mp hd with h1 | h1
      · subst h1; exact Nat.mod_lt _ (by decide)
      · exact ih (n / 10) d h1

theorem digitsRev_lt (n : Nat) : ∀ d ∈ digitsRev n, d < 10 :=
  digitsRevFuel_lt n n

theorem padDigits_sepFree (n : Nat) :
    ∀ c ∈ padDigits n, (c != '&' && c != '=') = true := by
  intro c hc
  unfold padDigits at hc
  split at hc
  · simp only [List.mem_singleton] at hc; subst hc; decide
  · rcases List.mem_map.mp hc with ⟨d, hd, rfl⟩
    have hlt : d < 10 := digitsRev_lt n d (List.mem_reverse.mp hd)
    interval_cases d <;> decide

theorem padNum_sepFree (w n : Nat) :
    ∀ c ∈ padNum w n, (c != '&' && c != '=') = true := by
  intro c hc
  unfold padNum at hc
  rcases List.mem_append.mp hc with h | h
  · rw [List.eq_of_mem_replicate h]; decide
  · exact padDigits_sepFree n c h

theorem strftimeYmd_sepFree (t : Nat) : formSepFree (strftimeYmd t) = true := by
  rw [formSepFree, List.all_eq_true]
  intro c hc
  have hc' : c ∈ padNum 4 (civilFromDays t).1
      ++ padNum 2 (civilFromDays t).2.1 ++ padNum 2 (civilFromDays t).2.2 := hc
  rcases List.mem_append.mp hc' with h | h
  · rcases List.mem_append.mp h with h1 | h1
    · exact padNum_sepFree _ _ c h1
    · exact padNum_sepFree _ _ c h1
  · exact padNum_sepFree _ _ c h

theorem splitOnChar_ne_nil (c : Char) (l : List Char) : splitOnChar c l ≠ [] := by
  induction l with
  | nil => simp [splitOnChar]
  | cons x xs ih =>
    rw [splitOnChar]
    cases hsp : splitOnChar c xs with
    | nil => simp
    | cons p ps => by_cases hx : x = c <;> simp [hx]

theorem splitOnChar_no_sep (c : Char) (l : List Char) (h : ∀ x ∈ l, x ≠ c) :
    splitOnChar c l = [l] := by
  induction l with
  | nil => rfl
  | cons x xs ih =>
    have hx : x ≠ c := h x (List.mem_cons_self x xs)
    have hrest : splitOnChar c xs = [xs] := ih (fun y hy => h y (List.mem_cons_of_mem x hy))
    rw [splitOnChar, hrest]
    simp [hx]

theorem splitOnChar_append (c : Char) (a b : List Char) (h : ∀ x ∈ a, x ≠ c) :
    splitOnChar c (a ++ c :: b) = a :: splitOnChar c b := by
  induction a with
  | nil =>
    rw [List.nil_append, splitOnChar]
    match hb : splitOnChar c b with
    | [] => exact absurd hb (splitOnChar_ne_nil c b)
    | p :: ps => simp
  | cons x xs ih =>
    have hx : x ≠ c := h x (List.mem_cons_self x xs)
    have hxs := ih (fun y hy => h y (List.mem_cons_of_mem x hy))
    rw [List.cons_append, splitOnChar, hxs]
    simp [hx]

theorem splitFirst_append (c : Char) (k v : List Char) (h : ∀ x ∈ k, x ≠ c) :
    splitFirst c (k ++ c :: v) = (k, v) := by
  induction k with
  | nil => simp [splitFirst]
  | cons x xs ih =>
    have hx : x ≠ c := h x (List.mem_cons_self x xs)
    have hxs := ih (fun y hy => h y (List.mem_cons_of_mem x hy))
    rw [List.cons_append, splitFirst]
    simp [hx, hxs]

theorem renderPair_no_amp (kv : String × String)
    (h1 : formSepFree kv.1 = true) (h2 : formSepFree kv.2 = true) :
    ∀ x ∈ renderPair kv, x ≠ '&' := by
  intro x hx
  rcases List.mem_append.mp hx with h | h
  · have := (List.all_eq_true.mp h1) x h
    simp only [Bool.and_eq_true, bne_iff_ne, ne_eq] at this
    exact this.1
  · rcases List.mem_cons.mp h with h' | h'
    · subst h'; decide
    · have := (List.all_eq_true.mp h2) x h'
      simp only [Bool.and_eq_true, bne_iff_ne, ne_eq] at this
      exact this.1

/-- Reading back a `&`-joined rendering of separator-free `key=value` pairs
recovers exactly those pairs. -/
theorem parseFormData_renderPairs (l : List (String × String)) (hne : l ≠ [])
    (h : ∀ kv ∈ l, formSepFree kv.1 = true ∧ formSepFree kv.2 = true) :
    parseFormData (String.mk (renderPairs l)) = l := by
  induction l with
  | nil => exact absurd rfl hne
  | cons kv rest ih =>
    have hkv := h kv (List.mem_cons_self kv rest)
    have hk_ne : ∀ x ∈ kv.1.data, x ≠ '=' := by
      intro x hx
      have := (List.all_eq_true.mp hkv.1) x hx
      simp only [Bool.and_eq_true, bne_iff_ne, ne_eq] at this
      exact this.2
    have hsplit_kv : splitFirst '=' (renderPair kv) = (kv.1.data, kv.2.data) :=
      splitFirst_append '=' kv.1.data kv.2.data hk_ne
    match rest with
    | [] =>
      show (splitOnChar '&' (renderPair kv)).map _ = [kv]
      rw [splitOnChar_no_sep '&' (renderPair kv) (renderPair_no_amp kv hkv.1 hkv.2)]
      simp [parsePart, hsplit_kv]
    | kv2 :: rest' =>
      have hrest : parseFormData (String.mk (renderPairs (kv2 :: rest'))) = kv2 :: rest' :=
        ih (by simp) (fun x hx => h x (List.mem_cons_of_mem kv hx))
      show (splitOnChar '&' (renderPair kv ++ '&' :: renderPairs (kv2 :: rest'))).map _
          = kv :: kv2 :: rest'
      rw [splitOnChar_append '&' (renderPair kv) (renderPairs (kv2 :: rest'))
        (renderPair_no_amp kv hkv.1 hkv.2)]
      rw [List.map_cons]
      refine congrArg₂ _ ?_ hrest
      simp [parsePart, hsplit_kv]

theorem no_amp_concat (a b : List Char) (ha : ∀ x ∈ a, x ≠ '&') (hb : ∀ x ∈ b, x ≠ '&') :
    ∀ x ∈ a ++ b, x ≠ '&' := by
  intro x hx
  rcases List.mem_append.mp hx with hh | hh
  · exact ha x hh
  · exact hb x hh

theorem sepFree_no_amp (s : String) (h : formSepFree s = true) : ∀ x ∈ s.data, x ≠ '&' := by
  intro x hx
  have := (List.all_eq_true.mp h) x hx
  simp only [Bool.and_eq_true, bne_iff_ne, ne_eq] at this
  exact this.1

theorem splitOnChar_peel2 (c : Char) (a b1 b2 : List Char) (h : ∀ x ∈ a, x ≠ c) :
    splitOnChar c (a ++ ((c :: b1) ++ b2)) = a :: splitOnChar c (b1 ++ b2) := by
  rw [List.cons_append]
  exact splitOnChar_append c a (b1 ++ b2) h

theorem splitOnChar_peel3 (c : Char) (a1 a2 b1 b2 : List Char) (h : ∀ x ∈ a1 ++ a2, x ≠ c) :
    splitOnChar c (a1 ++ (a2 ++ ((c :: b1) ++ b2))) = (a1 ++ a2) :: splitOnChar c (b1 ++ b2) := by
  rw [List.cons_append, ← List.append_assoc]
  exact splitOnChar_append c (a1 ++ a2) (b1 ++ b2) h

theorem parsePart_append (k v : List Char) (hk : ∀ x ∈ k, x ≠ '=') :
    parsePart (k ++ '=' :: v) = (String.mk k, String.mk v) := by
  rw [parsePart, splitFirst_append '=' k v hk]

theorem mk_data (s : String) : String.mk s.data = s := rfl

theorem dataATPT_cons (X : List Char) :
    "ATPT_OFCDC_SC_CODE=".data ++ X = "ATPT_OFCDC_SC_CODE".data ++ '=' :: X := rfl

theorem dataMLSV_cons (X : List Char) :
    "MLSV_YMD=".data ++ X = "MLSV_YMD".data ++ '=' :: X := rfl

/-- The full wire-shape of the Extract request body, for any partition code
free of the form separators and any pair of dates: the encoded parameters
read back as exactly the `form_pairs` list. -/
theorem parse_get_meal_form_data (code : String) (t e : Nat) (h : formSepFree code = true) :
    parseFormData (get_meal_form_data code t e) = form_pairs code t e := by
  have hA : ("rows=100&infId=OPEN17320190722180924242823&infSeq=1&downloadType=J&").data
      = "rows=100".data ++ '&' :: "infId=OPEN17320190722180924242823".data
        ++ '&' :: "infSeq=1".data ++ '&' :: "downloadType=J".data ++ ['&'] := by decide
  have hC : ("&SCHUL_NM=&MMEAL_SC_NM=").data
      = '&' :: "SCHUL_NM=".data ++ '&' :: "MMEAL_SC_NM=".data := by decide
  have hD : ("&MLSV_YMD=").data = '&' :: "MLSV_YMD=".data := by decide
  rw [parseFormData, get_meal_form_data, String.data_append, String.data_append,
    String.data_append, String.data_append, String.data_append, String.data_append,
    String.data_append, hA, hC, hD]
  repeat rw [List.append_assoc]
  rw [List.singleton_append]
  rw [splitOnChar_peel2 '&' ("rows=100".data) ("infId=OPEN17320190722180924242823".data) _
      (by decide),
    splitOnChar_peel2 '&' ("infId=OPEN17320190722180924242823".data) ("infSeq=1".data) _
      (by decide),
    splitOnChar_peel2 '&' ("infSeq=1".data) ("downloadType=J".data) _ (by decide),
    splitOnChar_append '&' ("downloadType=J".data) _ (by decide),
    splitOnChar_peel3 '&' ("ATPT_OFCDC_SC_CODE=".data) (code.data) ("SCHUL_NM=".data) _
      (no_amp_concat _ _ (by decide) (sepFree_no_amp code h)),
    splitOnChar_peel2 '&' ("SCHUL_NM=".data) ("MMEAL_SC_NM=".data) _ (by decide),
    splitOnChar_peel2 '&' ("MMEAL_SC_NM=".data) ("MLSV_YMD=".data) _ (by decide),
    splitOnChar_peel3 '&' ("MLSV_YMD=".data) ((strftimeYmd t).data) ("MLSV_YMD=".data)
      ((strftimeYmd e).data)
      (no_amp_concat _ _ (by decide) (sepFree_no_amp _ (strftimeYmd_sepFree t))),
    splitOnChar_no_sep '&' ("MLSV_YMD=".data ++ (strftimeYmd e).data)
      (no_amp_concat _ _ (by decide) (sepFree_no_amp _ (strftimeYmd_sepFree e)))]
  have hp1 : parsePart ("rows=100".data) = ("rows", "100") := by decide
  have hp2 : parsePart ("infId=OPEN17320190722180924242823".data)
      = ("infId", "OPEN17320190722180924242823") := by decide
  have hp3 : parsePart ("infSeq=1".data) = ("infSeq", "1") := by decide
  have hp4 : parsePart ("downloadType=J".data) = ("downloadType", "J") := by decide
  have hp5 : parsePart ("ATPT_OFCDC_SC_CODE=".data ++ code.data)
      = ("ATPT_OFCDC_SC_CODE", code) := by
    rw [dataATPT_cons, parsePart_append _ _ (by decide), mk_data, mk_data]
  have hp6 : parsePart ("SCHUL_NM=".data) = ("SCHUL_NM", "") := by decide
  have hp7 : parsePart ("MMEAL_SC_NM=".data) = ("MMEAL_SC_NM", "") := by decide
  have hp8 : parsePart ("MLSV_YMD=".data ++ (strftimeYmd t).data)
      = ("MLSV_YMD", strftimeYmd t) := by
    rw [dataMLSV_cons, parsePart_append _ _ (by decide), mk_data, mk_data]
  have hp9 : parsePart ("MLSV_YMD=".data ++ (strftimeYmd e).data)
      = ("MLSV_YMD", strftimeYmd e) := by
    rw [dataMLSV_cons, parsePart_append _ _ (by decide), mk_data, mk_data]
  simp only [List.map_cons, List.map_nil]
  rw [hp1, hp2, hp3, hp4, hp5, hp6, hp7, hp8, hp9, form_pairs]

deriving instance DecidableEq for Except

/-- Attempts outside the retry window are never consulted: two attempt traces
agreeing on attempts `i..i+budget` produce the same task outcome. -/
theorem runAttempts_congr (f g : Nat → Except EtlErr (List RowRecord)) (i budget : Nat)
    (h : ∀ j, i ≤ j → j ≤ i + budget → f j = g j) :
    runAttempts f i budget = runAttempts g i budget := by
  induction budget generalizing i with
  | zero => exact h i (Nat.le_refl i) (by omega)
  | succ b ih =>
    rw [runAttempts, runAttempts, h i (Nat.le_refl i) (by omega)]
    cases g i with
    | ok a => rfl
    | error e => exact ih (i + 1) (fun j h1 h2 => h j (by omega) (by omega))

/-! ## Claim theorems -/

/-- C1 (counterexample): on the empty parsed row sequence the Transform
stage's removal step `meal_data.pop(0)` raises `IndexError` — it does not
yield an empty `CleanedPayload`, contrary to the claim. -/
theorem C1_counterexample :
    transform ([] : List RowRecord) = Except.error EtlErr.indexError ∧
    transform ([] : List RowRecord) ≠ Except.ok [] := by
  exact ⟨rfl, by decide⟩

/-- C1 (amended): for every RawPayload whose parsed row sequence is empty,
the Transform stage fails with `IndexError` from the index-0 removal; the
removal step is not defined on the empty sequence. -/
theorem C1_transform_empty_raises :
    ∀ meal_data : List RowRecord, meal_data.length = 0 →
      transform meal_data = Except.error EtlErr.indexError := by
  intro meal_data h
  cases meal_data with
  | nil => rfl
  | cons x xs => simp at h

/-- C1 witness: the amended claim evaluated at the empty payload. -/
theorem C1_transform_empty_raises_witness :
    ([] : List RowRecord).length = 0 ∧
    transform ([] : List RowRecord) = Except.error EtlErr.indexError :=
  ⟨rfl, C1_transform_empty_raises [] rfl⟩

/-- C2: for every RawPayload of length `k ≥ 1`, Transform produces exactly
the elements at indices 1..k-1, in order, a CleanedPayload of length
`k - 1`. -/
theorem C2_transform_drops_exactly_header :
    ∀ (meal_data : List RowRecord) (k : Nat), meal_data.length = k → 1 ≤ k →
      ∃ cleaned, transform meal_data = Except.ok cleaned ∧
        cleaned.length = k - 1 ∧
        ∀ i : Nat, cleaned.get? i = meal_data.get? (i + 1) := by
  intro meal_data k hk h1
  cases meal_data with
  | nil => simp at hk; omega
  | cons x xs =>
    refine ⟨xs, rfl, ?_, fun i => rfl⟩
    simp at hk
    omega

/-- C2 witness: the spec §8 example payload, `k = 3`. -/
theorem C2_transform_drops_exactly_header_witness :
    ∃ cleaned, transform demo_rows = Except.ok cleaned ∧
      cleaned.length = 3 - 1 ∧
      ∀ i : Nat, cleaned.get? i = demo_rows.get? (i + 1) :=
  C2_transform_drops_exactly_header demo_rows 3 rfl (by decide)

/-- C3 (counterexample): the DAG file parsed on day 0 embeds date 7 in the
Extract request, but a Load task executing on day 1 (for instance a retry the
next day) recomputes `pendulum.now().add(days=7)` and keys the object under
date 8 — the Load StorageKey date differs from the Extract request date
within one batch. -/
theorem C3_counterexample :
    load_date 1 ≠ after_weeks 0 ∧
    load_storage_key 1 "B10" ≠ load_storage_key 0 "B10" := by
  constructor
  · decide
  · decide

/-- C3 (amended): the target date is not computed once per batch: the Extract
request date is fixed at DAG-parse time while the Load stage recomputes
`now + 7 days` at every execution, so the two dates agree exactly when the
Load executes on the same day the DAG file was parsed. -/
theorem C3_load_date_recomputed_per_execution :
    ∀ parse_now exec_now : Nat,
      load_date exec_now = after_weeks parse_now ↔ exec_now = parse_now := by
  intro parse_now exec_now
  simp [load_date, after_weeks, pendulum_add_days]

/-- C5 (counterexample): a Transform attempt that raises the Malformed-class
error on its first run is re-attempted under `default_args={"retries": 2}`
and the task succeeds on the retry — a `MalformedDataError` is retried, not
failed immediately. -/
theorem C5_counterexample :
    runAttempts transform_attempts_demo 0 default_args_retries = Except.ok [] ∧
    transform_attempts_demo 0 = Except.error EtlErr.malformedData :=
  ⟨rfl, rfl⟩

/-- C5 (amended): every task carries the same budget of 2 additional attempts
and the retry machinery is blind to the error class: an attempt failing with
any error — `malformedData` included — is re-run; only after 3 failing
attempts does the error stand; and a run consults only attempts
`0..default_args_retries`. -/
theorem C5_retry_budget_uniform :
    (∀ (e : EtlErr) (res : List RowRecord),
        runAttempts (fun i => if i = 0 then Except.error e else Except.ok res) 0
          default_args_retries = Except.ok res) ∧
    (∀ e : EtlErr,
        runAttempts (fun _ => (Except.error e : Except EtlErr (List RowRecord))) 0
          default_args_retries = Except.error e) ∧
    (∀ f g : Nat → Except EtlErr (List RowRecord),
        (∀ i, i ≤ default_args_retries → f i = g i) →
        runAttempts f 0 default_args_retries = runAttempts g 0 default_args_retries) := by
  refine ⟨fun e res => rfl, fun e => rfl, ?_⟩
  intro f g h
  exact runAttempts_congr f g 0 default_args_retries (fun j h1 h2 => h j h2)

/-- C5 witness: the amended claim evaluated at the malformed-data error class
and at two attempt traces agreeing on the budget window. -/
theorem C5_retry_budget_uniform_witness :
    runAttempts (fun i => if i = 0 then Except.error EtlErr.malformedData
        else Except.ok ([[("dish", "rice")]] : List RowRecord)) 0 default_args_retries
      = Except.ok [[("dish", "rice")]] ∧
    runAttempts (fun _ => (Except.error EtlErr.transientFetch :
        Except EtlErr (List RowRecord))) 0 default_args_retries
      = Except.error EtlErr.transientFetch ∧
    runAttempts (fun _ => Except.ok ([] : List RowRecord)) 0 default_args_retries
      = runAttempts (fun _ => Except.ok ([] : List RowRecord)) 0 default_args_retries :=
  ⟨C5_retry_budget_uniform.1 EtlErr.malformedData [[("dish", "rice")]],
   C5_retry_budget_uniform.2.1 EtlErr.transientFetch,
   C5_retry_budget_uniform.2.2 (fun _ => Except.ok []) (fun _ => Except.ok [])
     (fun _ _ => rfl)⟩

/-- C6 (counterexample): on a 404 response the DAG's Extract task does fail,
but the standalone `download_meal_info` returns the Python value `None`
(modeled `none`) as its ordinary return value — a null success result, not
an explicit failure — falsifying the claim for the cited
`download_meal_info` code. -/
theorem C6_counterexample :
    download_meal_info 404 demo_rows = none ∧
    extract 404 demo_rows = Except.error EtlErr.transientFetch :=
  ⟨rfl, rfl⟩

/-- C6 (amended): for every non-200 status the DAG's Extract task fails
explicitly (its `response_check` rejects the response and the task raises,
handing nothing to Transform), while `download_meal_info` does not fail: it
returns `None`. -/
theorem C6_nonsuccess_fails_explicitly :
    ∀ (status : Nat) (body : List RowRecord), status ≠ 200 →
      extract status body = Except.error EtlErr.transientFetch ∧
      download_meal_info status body = none := by
  intro status body h
  have hb : (status == 200) = false := by
    simpa using h
  constructor
  · simp [extract, response_check, hb]
  · simp [download_meal_info, hb]

/-- C6 witness: the amended claim evaluated at a 500 response. -/
theorem C6_nonsuccess_fails_explicitly_witness :
    extract 500 demo_rows = Except.error EtlErr.transientFetch ∧
    download_meal_info 500 demo_rows = none :=
  C6_nonsuccess_fails_explicitly 500 demo_rows (by decide)

/-- C9: `removesuffix` returns `None` when the target does not end with the
suffix (single or any of a list), and on a list argument strips exactly the
first matching suffix in list order. -/
theorem C9_removesuffix_none_and_first_match :
    (∀ target s : String, pyEndsWith target s = false →
        removesuffix target (SuffixArg.single s) = none) ∧
    (∀ (target : String) (l : List String), (∀ s ∈ l, pyEndsWith target s = false) →
        removesuffix target (SuffixArg.multi l) = none) ∧
    (∀ (target : String) (l1 : List String) (s : String) (l2 : List String),
        (∀ s1 ∈ l1, pyEndsWith target s1 = false) → pyEndsWith target s = true →
        removesuffix target (SuffixArg.multi (l1 ++ s :: l2))
          = some (pyNegSlice target s.length)) := by
  refine ⟨?_, ?_, ?_⟩
  · intro target s h
    simp [removesuffix, h]
  · intro target l h
    induction l with
    | nil => rfl
    | cons suf rest ih =>
      have h0 : pyEndsWith target suf = false := h suf (List.mem_cons_self suf rest)
      have hr := ih (fun s hs => h s (List.mem_cons_of_mem suf hs))
      simp only [removesuffix, removesuffix_go, h0, Bool.false_eq_true, if_false]
      simpa [removesuffix] using hr
  · intro target l1 s l2 h1 hs
    induction l1 with
    | nil =>
      simp [removesuffix, removesuffix_go, hs]
    | cons suf rest ih =>
      have h0 : pyEndsWith target suf = false := h1 suf (List.mem_cons_self suf rest)
      have hr := ih (fun s1 hs1 => h1 s1 (List.mem_cons_of_mem suf hs1))
      simp only [removesuffix, List.cons_append, removesuffix_go, h0, Bool.false_eq_true,
        if_false]
      simpa [removesuffix] using hr

/-- C9 witness: the suffix-list usage of `get_meal_info` — `"10.5(mg)"` does
not end with `"(g)"`, so the first matching suffix is `"(mg)"`; and a
no-match single suffix yields `None`. -/
theorem C9_removesuffix_witness :
    removesuffix "dummy" (SuffixArg.single " Kcal") = none ∧
    removesuffix "10.5(mg)" (SuffixArg.multi (["(g)"] ++ "(mg)" :: ["(R.E)"]))
      = some (pyNegSlice "10.5(mg)" "(mg)".length) :=
  ⟨C9_removesuffix_none_and_first_match.1 "dummy" " Kcal" (by decide),
   C9_removesuffix_none_and_first_match.2.2 "10.5(mg)" ["(g)"] "(mg)" ["(R.E)"]
     (by decide) (by decide)⟩

/-- C10: when the upstream response is not successful, `get_meal_info`
reaches its `return` with the local `ntr_info` bound to the empty dict but
`cal_info` never assigned, so the return statement raises
`NameError`/`UnboundLocalError` for `cal_info`; there is no explicit error
result. -/
theorem C10_nonsuccess_raises_nameError :
    get_meal_info NeisResp.failure = Except.error (EtlErr.nameError "cal_info") ∧
    get_meal_info_locals NeisResp.failure = Except.ok ([], none) :=
  ⟨rfl, rfl⟩

theorem filter_put_idem (store : List (String × String)) (k d : String) :
    ((k, d) :: store.filter (fun kv => kv.1 != k)).filter (fun kv => kv.1 != k)
      = store.filter (fun kv => kv.1 != k) := by
  rw [List.filter_cons]
  simp [List.filter_filter]

/-- C4 (counterexample): two runs of the full pipeline with identical upstream
data but Load executions one day apart both succeed and write different
StorageKeys — re-running «the same trigger date» on a later day duplicates
the object under a new date directory instead of replacing it. -/
theorem C4_counterexample :
    except_key (run_pipeline 0 "B10" 200 demo_rows) = some "19700108/B10.json" ∧
    except_key (run_pipeline 1 "B10" 200 demo_rows) = some "19700109/B10.json" ∧
    except_key (run_pipeline 0 "B10" 200 demo_rows)
      ≠ except_key (run_pipeline 1 "B10" 200 demo_rows) := by
  refine ⟨rfl, rfl, ?_⟩
  decide

/-- C4 (amended): the pipeline is deterministic in (execution date, partition,
upstream data); for equal Load-execution dates it stores byte-identical
output at the StorageKey with `replace=True`, and writing the same object a
second time leaves the store exactly as after the first write (overwrite,
not duplication).  The StorageKey depends on the wall clock at Load
execution — not on the trigger date — so this holds only with the execution
date fixed (see C3). -/
theorem C4_idempotent_same_execution_date :
    ∀ (store : List (String × String)) (exec_now : Nat) (code : String) (status : Nat)
      (upstream : List RowRecord) (o : StoredObject),
      run_pipeline exec_now code status upstream = Except.ok o →
      o.replace = true ∧ o.key = load_storage_key exec_now code ∧
      ∃ st1, s3_load_string store o = Except.ok st1 ∧
        s3_load_string st1 o = Except.ok st1 := by
  intro store exec_now code status upstream o h
  rw [run_pipeline] at h
  cases hx : extract status upstream with
  | error e => simp only [hx] at h; exact Except.noConfusion h
  | ok raw =>
    simp only [hx] at h
    cases ht : transform raw with
    | error e => simp only [ht] at h; exact Except.noConfusion h
    | ok cleaned =>
      simp only [ht] at h
      have ho : load exec_now code cleaned = o := by
        simpa using h
      subst ho
      refine ⟨rfl, rfl, ?_⟩
      refine ⟨(load_storage_key exec_now code, dumps_rows cleaned)
        :: store.filter (fun kv => kv.1 != load_storage_key exec_now code), ?_, ?_⟩
      · simp [s3_load_string, load]
      · simp [s3_load_string, load, filter_put_idem]

/-- C4 witness: the amended claim evaluated at an empty store, execution day
0, partition B10, a 200 response, and the spec example payload. -/
theorem C4_idempotent_same_execution_date_witness :
    (load 0 "B10" [[("dish", "rice")], [("dish", "soup")]]).replace = true ∧
    (load 0 "B10" [[("dish", "rice")], [("dish", "soup")]]).key
      = load_storage_key 0 "B10" ∧
    ∃ st1, s3_load_string []
        (load 0 "B10" [[("dish", "rice")], [("dish", "soup")]]) = Except.ok st1 ∧
      s3_load_string st1
        (load 0 "B10" [[("dish", "rice")], [("dish", "soup")]]) = Except.ok st1 :=
  C4_idempotent_same_execution_date [] 0 "B10" 200 demo_rows _ rfl

/-- C7: for every partition code in the Region Registry and every date
window, the Extract request body encodes the partition code, the `rows=100`
limit, the fixed `infId` report identifier, and both boundary dates
(`YYYYMMDD`) as two explicit `MLSV_YMD` parameters — two parameters even
when the two dates are equal. -/
theorem C7_request_encodes_code_limit_and_both_dates :
    ∀ code ∈ ATPT_OFCDC_SC_CODES, ∀ to_date end_date : Nat,
      parseFormData (get_meal_form_data code to_date end_date)
        = form_pairs code to_date end_date ∧
      (form_pairs code to_date end_date).countP (fun kv => kv.1 == "MLSV_YMD") = 2 := by
  intro code hc to_date end_date
  have hsep : formSepFree code = true := by fin_cases hc <;> decide
  exact ⟨parse_get_meal_form_data code to_date end_date hsep, rfl⟩

/-- C7 witness: partition B10 with the spec example window
start = end = 2022-04-15 (day index 19097). -/
theorem C7_request_encodes_code_limit_and_both_dates_witness :
    parseFormData (get_meal_form_data "B10" 19097 19097)
      = form_pairs "B10" 19097 19097 ∧
    (form_pairs "B10" 19097 19097).countP (fun kv => kv.1 == "MLSV_YMD") = 2 :=
  C7_request_encodes_code_limit_and_both_dates "B10" (by decide) 19097 19097

/-- C8: the assembler registers exactly one linear Extract → Transform → Load
chain per registry partition (and nothing else — in particular no edge
between different partitions), and in every schedule respecting those edges
each partition's Transform starts only after its own Extract finishes and
its Load only after its own Transform finishes. -/
theorem C8_one_chain_per_partition :
    dag_edges = (ATPT_OFCDC_SC_CODES.map spec_chain).flatten ∧
    (∀ sched : String → Nat × Nat, respects_edges dag_edges sched →
      ∀ code ∈ ATPT_OFCDC_SC_CODES,
        (sched (task_id_for "extract" code)).2
          < (sched (task_id_for "transform" code)).1 ∧
        (sched (task_id_for "transform" code)).2
          < (sched (task_id_for "load" code)).1) := by
  have hedges : dag_edges = (ATPT_OFCDC_SC_CODES.map spec_chain).flatten := by decide
  refine ⟨hedges, ?_⟩
  intro sched hresp code hc
  constructor
  · refine hresp (task_id_for "extract" code, task_id_for "transform" code) ?_
    rw [hedges]
    simp only [List.mem_flatten, List.mem_map]
    exact ⟨spec_chain code, ⟨code, hc, rfl⟩, by simp [spec_chain]⟩
  · refine hresp (task_id_for "transform" code, task_id_for "load" code) ?_
    rw [hedges]
    simp only [List.mem_flatten, List.mem_map]
    exact ⟨spec_chain code, ⟨code, hc, rfl⟩, by simp [spec_chain]⟩

/-- C8 witness: the stage-by-stage schedule `w_sched` respects all registered
edges, and the chain ordering instantiated at partition B10. -/
theorem C8_one_chain_per_partition_witness :
    respects_edges dag_edges w_sched ∧
    (w_sched (task_id_for "extract" "B10")).2
      < (w_sched (task_id_for "transform" "B10")).1 ∧
    (w_sched (task_id_for "transform" "B10")).2
      < (w_sched (task_id_for "load" "B10")).1 := by
  have hresp : respects_edges dag_edges w_sched := by
    unfold respects_edges
    decide
  exact ⟨hresp, C8_one_chain_per_partition.2 w_sched hresp "B10" (by decide)⟩
